import Mathlib

/-!
Verification development for a personal-finance backend consisting of two
Python modules: `expense_categorizer.py` (a classifier adapter around an
external chat-completion service) and `main.py` (FastAPI endpoints; here we
embed the transaction-creation flow `add_transaction`).

The external chat-completion call is modelled as an explicit oracle of type
`Request → Except Fault Response`: the adapter builds a request, hands it to
the oracle, and post-processes the answer exactly as the Python does.
Clock reads (`datetime.utcnow()`) are modelled as an explicit `now` argument.
Database state is modelled as a list of persisted transactions.
-/

namespace ExpenseBackend

/-- Chat message, as in the request payload `{"role": ..., "content": ...}`
and in the response field `response["choices"][i]["message"]`. -/
structure Message where
  role : String
  content : String
deriving DecidableEq

/-- One completion candidate of the service response
(`response["choices"][i]`). -/
structure Choice where
  message : Message
deriving DecidableEq

/-- Shape of a well-formed service response: a list of completion
candidates. -/
structure Response where
  choices : List Choice
deriving DecidableEq

/-- Outbound request to the chat-completion endpoint, as built by
`openai.ChatCompletion.create(model=..., messages=...)`. -/
structure Request where
  model : String
  messages : List Message
deriving DecidableEq

/-- Faults the call chain can raise: transport or auth failures raised by the
client library, and the IndexError Python raises at
`response["choices"][0]` when the choices list is empty. -/
inductive Fault where
  | transportFailure
  | authFailure
  | indexError
deriving DecidableEq

/-- The fixed category list of `expense_categorizer.py`, line 9. -/
def CATEGORIES : List String :=
  ["Groceries", "Rent", "Bills", "Entertainment", "Transport", "Healthcare",
   "Education", "Shopping"]

/-- Embedding of Python `str.strip()` restricted to ASCII whitespace: drop
leading and trailing whitespace characters. -/
def strip (s : String) : String :=
  ⟨((s.data.dropWhile Char.isWhitespace).reverse.dropWhile
      Char.isWhitespace).reverse⟩

/-- The prompt string of `expense_categorizer.py`, line 15: the f-string
interpolating the description and the comma-joined category list. -/
def buildPrompt (description : String) : String :=
  "Classify this expense: '" ++ description ++
    "' into one of the following categories: " ++
    String.intercalate ", " CATEGORIES ++ "."

/-- The request built at `expense_categorizer.py`, lines 17-20: fixed model
identifier and a single user-role message carrying the prompt. -/
def buildRequest (description : String) : Request :=
  { model := "gpt-3.5-turbo",
    messages := [{ role := "user", content := buildPrompt description }] }

/-- Embedding of `categorize_expense` (`expense_categorizer.py`, lines
11-27), with the network call abstracted as the oracle `create`. It builds
the prompt and request, issues the call, takes the first choice's message
content (IndexError if there is none), strips it, and replaces it by
"Other" unless it is a member of `CATEGORIES`. -/
def categorize_expense (create : Request → Except Fault Response)
    (description : String) : Except Fault String :=
  match create (buildRequest description) with
  | Except.error e => Except.error e
  | Except.ok response =>
    match response.choices with
    | [] => Except.error Fault.indexError
    | choice :: _ =>
      let category := strip choice.message.content
      let category := if category ∈ CATEGORIES then category else "Other"
      Except.ok category

/-- Response post-processing of `expense_categorizer.py`, lines 22-27, taken
on its own: the validation applied to whatever the call returned. -/
def processResponse : Except Fault Response → Except Fault String
  | Except.error e => Except.error e
  | Except.ok response =>
    match response.choices with
    | [] => Except.error Fault.indexError
    | choice :: _ =>
      let category := strip choice.message.content
      let category := if category ∈ CATEGORIES then category else "Other"
      Except.ok category

/-- Modelled from the spec: the `User` entity of the missing `models.py`;
only the `id` field is read by `add_transaction`. -/
structure User where
  id : Nat
deriving DecidableEq

/-- Modelled from the spec: the persisted `Transaction` entity of the
missing `models.py`, with exactly the fields `add_transaction` sets. -/
structure Transaction where
  amount : Float
  category : String
  description : String
  date : Nat
  user_id : Nat

/-- Request body of the transaction endpoint (`main.py`, `TransactionCreate`
pydantic model): client-submitted amount and description. -/
structure TransactionCreate where
  amount : Float
  description : String

/-- Embedding of `add_transaction` (`main.py`, lines 66-80). The database is
a list of transactions; `now` stands for `datetime.utcnow()` at call time.
Returns the endpoint's result together with the database state after the
call: on a classification fault the fault propagates and the database is
unchanged; on success the built transaction is appended and returned. -/
def add_transaction (create : Request → Except Fault Response)
    (transaction : TransactionCreate) (db : List Transaction) (user : User)
    (now : Nat) : Except Fault Transaction × List Transaction :=
  match categorize_expense create transaction.description with
  | Except.error e => (Except.error e, db)
  | Except.ok category =>
    let new_transaction : Transaction :=
      { amount := transaction.amount,
        category := category,
        description := transaction.description,
        date := now,
        user_id := user.id }
    (Except.ok new_transaction, db ++ [new_transaction])

/-- A well-formed single-choice response carrying the given message text. -/
def respWith (content : String) : Response :=
  { choices := [{ message := { role := "assistant", content := content } }] }

/-- A stand-in service that answers every request with the given text. -/
def okOracle (content : String) : Request → Except Fault Response :=
  fun _ => Except.ok (respWith content)

/-- A stand-in service that faults on every request. -/
def errOracle (e : Fault) : Request → Except Fault Response :=
  fun _ => Except.error e

/-- A sample client-submitted transaction body used in witnesses. -/
def sampleCreate : TransactionCreate :=
  { amount := 12.5, description := "Monthly rent" }

/-- A sample authenticated user used in witnesses. -/
def sampleUser : User := { id := 42 }

/-- C1: for every description and every well-formed response (the oracle
answers with a response having at least one choice), `categorize_expense`
returns a label in `CATEGORIES` or the fallback "Other", never any other
string. -/
theorem categorize_label_in_categories_or_other
    (create : Request → Except Fault Response) (description : String)
    (r : Response) (hok : create (buildRequest description) = Except.ok r)
    (hne : r.choices ≠ []) :
    ∃ label, categorize_expense create description = Except.ok label ∧
      (label ∈ CATEGORIES ∨ label = "Other") := by
  unfold categorize_expense
  rw [hok]
  rcases r with ⟨choices⟩
  cases choices with
  | nil => exact absurd rfl hne
  | cons choice rest =>
    by_cases hmem : strip choice.message.content ∈ CATEGORIES
    · exact ⟨strip choice.message.content, by simp [hmem], Or.inl hmem⟩
    · exact ⟨"Other", by simp [hmem], Or.inr rfl⟩

/-- Witness for C1 at the concrete oracle answering "Entertainment". -/
theorem categorize_label_in_categories_or_other_witness :
    ∃ label, categorize_expense (okOracle "Entertainment")
        "Netflix monthly subscription" = Except.ok label ∧
      (label ∈ CATEGORIES ∨ label = "Other") :=
  categorize_label_in_categories_or_other (okOracle "Entertainment")
    "Netflix monthly subscription" (respWith "Entertainment") rfl (by decide)

/-- C2: if the first choice's message text strips to a member `c` of the
category set, `categorize_expense` returns exactly `c`. -/
theorem categorize_returns_category_on_exact_match
    (create : Request → Except Fault Response) (description c : String)
    (r : Response) (choice : Choice)
    (hok : create (buildRequest description) = Except.ok r)
    (hfst : r.choices.head? = some choice)
    (hstrip : strip choice.message.content = c)
    (hmem : c ∈ CATEGORIES) :
    categorize_expense create description = Except.ok c := by
  unfold categorize_expense
  rw [hok]
  rcases r with ⟨choices⟩
  cases choices with
  | nil => simp at hfst
  | cons a rest =>
    simp only [List.head?_cons, Option.some.injEq] at hfst
    subst hfst
    simp [hstrip, hmem]

/-- Witness for C2: the whitespace-padded response text of scenario 3,
a stand-in returning " Groceries \n" yields "Groceries". -/
theorem categorize_returns_category_on_exact_match_witness :
    categorize_expense (okOracle " Groceries \n") "Grocery run" =
      Except.ok "Groceries" :=
  categorize_returns_category_on_exact_match (okOracle " Groceries \n")
    "Grocery run" "Groceries" (respWith " Groceries \n")
    { message := { role := "assistant", content := " Groceries \n" } }
    rfl rfl rfl (by decide)

/-- C3: if the stripped first-choice text is not an exact case-sensitive
member of the category set, `categorize_expense` returns "Other". -/
theorem categorize_returns_other_on_mismatch
    (create : Request → Except Fault Response) (description : String)
    (r : Response) (choice : Choice)
    (hok : create (buildRequest description) = Except.ok r)
    (hfst : r.choices.head? = some choice)
    (hmem : strip choice.message.content ∉ CATEGORIES) :
    categorize_expense create description = Except.ok "Other" := by
  unfold categorize_expense
  rw [hok]
  rcases r with ⟨choices⟩
  cases choices with
  | nil => simp at hfst
  | cons a rest =>
    simp only [List.head?_cons, Option.some.injEq] at hfst
    subst hfst
    simp [hmem]

/-- Witness for C3: the lowercase "groceries" of scenario 4 falls back to
"Other" (no case-folding). -/
theorem categorize_returns_other_on_mismatch_witness :
    categorize_expense (okOracle "groceries") "Grocery run" =
      Except.ok "Other" :=
  categorize_returns_other_on_mismatch (okOracle "groceries") "Grocery run"
    (respWith "groceries")
    { message := { role := "assistant", content := "groceries" } }
    rfl rfl (by decide)

/-- C4: if the classification call faults, `add_transaction` propagates the
same fault and the database is unchanged: nothing is persisted. -/
theorem add_transaction_propagates_fault_unchanged_db
    (create : Request → Except Fault Response) (t : TransactionCreate)
    (db : List Transaction) (user : User) (now : Nat) (e : Fault)
    (h : create (buildRequest t.description) = Except.error e) :
    add_transaction create t db user now = (Except.error e, db) := by
  unfold add_transaction categorize_expense
  rw [h]

/-- Witness for C4: a transport fault from the stand-in service propagates
through `add_transaction` and leaves the (empty) store empty. -/
theorem add_transaction_propagates_fault_unchanged_db_witness :
    add_transaction (errOracle Fault.transportFailure) sampleCreate []
      sampleUser 7 = (Except.error Fault.transportFailure, []) :=
  add_transaction_propagates_fault_unchanged_db
    (errOracle Fault.transportFailure) sampleCreate [] sampleUser 7
    Fault.transportFailure rfl

/-- C5: on successful classification, the persisted transaction carries the
classification result as category, the call-time clock value as date, the
authenticated user's id, and the client-submitted amount and description;
it is appended to the store and returned. -/
theorem add_transaction_success_fields
    (create : Request → Except Fault Response) (t : TransactionCreate)
    (db : List Transaction) (user : User) (now : Nat) (category : String)
    (h : categorize_expense create t.description = Except.ok category) :
    ∃ tx : Transaction,
      add_transaction create t db user now = (Except.ok tx, db ++ [tx]) ∧
      tx.category = category ∧ tx.date = now ∧ tx.user_id = user.id ∧
      tx.amount = t.amount ∧ tx.description = t.description := by
  refine ⟨Transaction.mk t.amount category t.description now user.id,
    ?_, rfl, rfl, rfl, rfl, rfl⟩
  unfold add_transaction
  rw [h]

/-- Witness for C5 at a stand-in service answering "Rent". -/
theorem add_transaction_success_fields_witness :
    ∃ tx : Transaction,
      add_transaction (okOracle "Rent") sampleCreate [] sampleUser 7 =
        (Except.ok tx, [] ++ [tx]) ∧
      tx.category = "Rent" ∧ tx.date = 7 ∧ tx.user_id = sampleUser.id ∧
      tx.amount = sampleCreate.amount ∧
      tx.description = sampleCreate.description :=
  add_transaction_success_fields (okOracle "Rent") sampleCreate [] sampleUser
    7 "Rent" rfl

/-- C6: the request is a fixed model identifier together with one user-role
message whose text is exactly the rendered prompt, the category list joined
with ", ". -/
theorem request_is_fixed_model_single_user_prompt (description : String) :
    buildRequest description =
      Request.mk "gpt-3.5-turbo"
        [Message.mk "user"
          ("Classify this expense: '" ++ description ++
            "' into one of the following categories: " ++
            "Groceries, Rent, Bills, Entertainment, Transport, Healthcare, Education, Shopping"
            ++ ".")] := by
  rw [buildRequest, buildPrompt]
  rw [show String.intercalate ", " CATEGORIES =
    "Groceries, Rent, Bills, Entertainment, Transport, Healthcare, Education, Shopping"
    from rfl]

/-- C7: the category set is exactly the fixed eight-element sequence, it is
non-empty and duplicate-free. (It is a top-level constant, so no operation
can mutate it.) -/
theorem categories_fixed_nonempty_nodup :
    CATEGORIES = ["Groceries", "Rent", "Bills", "Entertainment", "Transport",
      "Healthcare", "Education", "Shopping"] ∧
    CATEGORIES ≠ [] ∧ CATEGORIES.Nodup :=
  ⟨rfl, by decide, by decide⟩

/-- C8: for every description — the empty string included — the result of
`categorize_expense` is exactly the post-processing of the service's answer
to the built request: the call is always issued and there is no
short-circuit or guard bypassing it. -/
theorem categorize_always_issues_request
    (create : Request → Except Fault Response) (description : String) :
    categorize_expense create description =
      processResponse (create (buildRequest description)) := by
  unfold categorize_expense processResponse
  cases create (buildRequest description) <;> rfl

/-- C9: noninterference in the description: two invocations whose responses
carry equal first-choice message text return equal labels, even for
different descriptions and different oracles. -/
theorem categorize_noninterference_of_description
    (create1 create2 : Request → Except Fault Response) (d1 d2 : String)
    (r1 r2 : Response) (ch1 ch2 : Choice)
    (h1 : create1 (buildRequest d1) = Except.ok r1)
    (h2 : create2 (buildRequest d2) = Except.ok r2)
    (hf1 : r1.choices.head? = some ch1) (hf2 : r2.choices.head? = some ch2)
    (heq : ch1.message.content = ch2.message.content) :
    categorize_expense create1 d1 = categorize_expense create2 d2 := by
  unfold categorize_expense
  rw [h1, h2]
  rcases r1 with ⟨choices1⟩
  rcases r2 with ⟨choices2⟩
  cases choices1 with
  | nil => simp at hf1
  | cons a l =>
    cases choices2 with
    | nil => simp at hf2
    | cons b m =>
      simp only [List.head?_cons, Option.some.injEq] at hf1 hf2
      subst hf1
      subst hf2
      simp only [heq]

/-- Witness for C9: two different descriptions, same response text "Bills",
equal results. -/
theorem categorize_noninterference_of_description_witness :
    categorize_expense (okOracle "Bills") "electricity" =
      categorize_expense (okOracle "Bills") "water charges" :=
  categorize_noninterference_of_description (okOracle "Bills")
    (okOracle "Bills") "electricity" "water charges"
    (respWith "Bills") (respWith "Bills")
    { message := { role := "assistant", content := "Bills" } }
    { message := { role := "assistant", content := "Bills" } }
    rfl rfl rfl rfl rfl

/-- C10: the fallback label "Other" is not a category, so the nine possible
results are pairwise distinct; a service answer that is literally "Other"
is still mapped to the fallback label. -/
theorem other_is_fallback_not_category :
    "Other" ∉ CATEGORIES ∧ ("Other" :: CATEGORIES).Nodup ∧
    ("Other" :: CATEGORIES).length = 9 ∧
    categorize_expense (okOracle "Other") "any description" =
      Except.ok "Other" :=
  ⟨by decide, by decide, rfl, rfl⟩

end ExpenseBackend
